import Mathlib

/-!
Shallow embedding of the transaction classification and statistical
aggregation core of `src/main.py` (a Bitcoin address analyzer built on the
Blockchain.info raw-address API), together with theorems checking the
natural-language specification against it.

The embedding mirrors the Python data access patterns:
* `input_tx.get('prev_out', {}).get('addr')` becomes an `Option`-chain;
* `output.get('value', 0)` becomes `Option.getD 0`;
* Python truthiness `if addr:` on a string is "present and nonempty";
* a Python `set` is modelled by the cardinality of the deduplicated
  accumulation list (only cardinalities of the sets are ever used);
* `numpy` mean/max/min/std over exact numbers (counts are integers,
  amounts are integer satoshi divided by 10^8) are modelled over `ℚ`,
  with `np.std` as the real square root of the population variance.
-/

/-- The `prev_out` sub-record of a transaction input: an optional address. -/
structure PrevOut where
  addr : Option String
deriving DecidableEq

/-- A transaction input; the `prev_out` key itself may be absent. -/
structure TxInput where
  prev_out : Option PrevOut
deriving DecidableEq

/-- A transaction output: optional address and optional integer value
(satoshi).  A missing `value` key reads as `0` via `get('value', 0)`. -/
structure TxOutput where
  addr : Option String
  value : Option ℤ
deriving DecidableEq

/-- A transaction as used by the core: the `inputs` list and the `out`
list (both default to `[]` via `tx.get(..., [])` in the source). -/
structure Tx where
  inputs : List TxInput
  out : List TxOutput
deriving DecidableEq

/-- `input_tx.get('prev_out', {}).get('addr')`: the previous-output address
of an input, absent when either key is missing. -/
def inputAddr (i : TxInput) : Option String :=
  (i.prev_out.getD ⟨none⟩).addr

/-- `if input_tx.get('prev_out', {}).get('addr') == target_address` for one
input (classification test; no truthiness filter here). -/
def isInTx (tx : Tx) (target : String) : Bool :=
  tx.inputs.any (fun i => inputAddr i == some target)

/-- `if output.get('addr') == target_address` over the outputs
(classification test for the receiving side). -/
def isOutTx (tx : Tx) (target : String) : Bool :=
  tx.out.any (fun o => o.addr == some target)

/-- `process_transactions`: one pass over the transactions, appending each
transaction to `in_txs` when some input's previous-output address equals
the target, and (independently) to `out_txs` when some output address
equals the target. -/
def process_transactions : List Tx → String → List Tx × List Tx
  | [], _ => ([], [])
  | tx :: rest, target =>
    let p := process_transactions rest target
    (if isInTx tx target then tx :: p.1 else p.1,
     if isOutTx tx target then tx :: p.2 else p.2)

/-- The `current_senders` list of `calculate_in_params`: input
previous-output addresses that are truthy (`if addr:`). -/
def txInSenders (tx : Tx) : List String :=
  tx.inputs.filterMap (fun i =>
    match inputAddr i with
    | some a => if a = "" then none else some a
    | none => none)

/-- The `current_recipients` list of `calculate_in_params`: output
addresses that are truthy and differ from the target
(`if addr and addr != target_address`). -/
def txRecipients (tx : Tx) (target : String) : List String :=
  tx.out.filterMap (fun o =>
    match o.addr with
    | some a => if a = "" ∨ a = target then none else some a
    | none => none)

/-- The `sent_amount` accumulation of `calculate_in_params`: sum of
`output.get('value', 0)` over outputs with `output.get('addr') !=
target_address` (note: an absent address is `!=` any string target). -/
def txSentSat (tx : Tx) (target : String) : ℤ :=
  ((tx.out.filter (fun o => o.addr != some target)).map
    (fun o => o.value.getD 0)).sum

/-- The `current_senders` list of `calculate_out_params`: truthy input
previous-output addresses excluding the target itself
(`if addr and addr != target_address`). -/
def txOutSenders (tx : Tx) (target : String) : List String :=
  tx.inputs.filterMap (fun i =>
    match inputAddr i with
    | some a => if a = "" ∨ a = target then none else some a
    | none => none)

/-- The `current_receivers` list of `calculate_out_params`: truthy output
addresses, with no exclusion of the target. -/
def txReceivers (tx : Tx) : List String :=
  tx.out.filterMap (fun o =>
    match o.addr with
    | some a => if a = "" then none else some a
    | none => none)

/-- The `amount_received` accumulation of `calculate_out_params`: sum of
values over outputs whose address equals the target. -/
def txReceivedSat (tx : Tx) (target : String) : ℤ :=
  ((tx.out.filter (fun o => o.addr == some target)).map
    (fun o => o.value.getD 0)).sum

/-- `recipients_counts` across the sending set. -/
def recipientsCounts (in_txs : List Tx) (target : String) : List ℕ :=
  in_txs.map (fun tx => (txRecipients tx target).length)

/-- `sender_counts` across the sending set. -/
def senderCounts (in_txs : List Tx) : List ℕ :=
  in_txs.map (fun tx => (txInSenders tx).length)

/-- `transferred_coins` across the sending set (satoshi, one per tx). -/
def transferredCoins (in_txs : List Tx) (target : String) : List ℤ :=
  in_txs.map (fun tx => txSentSat tx target)

/-- `all_recipients` across the sending set (list, occurrences kept). -/
def allRecipients (in_txs : List Tx) (target : String) : List String :=
  (in_txs.map (fun tx => txRecipients tx target)).flatten

/-- Accumulated sender addresses across the sending set; the Python
`all_senders` set is this list deduplicated. -/
def allSendersIn (in_txs : List Tx) : List String :=
  (in_txs.map txInSenders).flatten

/-- `senders_counts` across the receiving set. -/
def sendersCountsOut (out_txs : List Tx) (target : String) : List ℕ :=
  out_txs.map (fun tx => (txOutSenders tx target).length)

/-- `receivers_counts` across the receiving set. -/
def receiversCounts (out_txs : List Tx) : List ℕ :=
  out_txs.map (fun tx => (txReceivers tx).length)

/-- `received_coins` across the receiving set (satoshi, one per tx). -/
def receivedCoins (out_txs : List Tx) (target : String) : List ℤ :=
  out_txs.map (fun tx => txReceivedSat tx target)

/-- `all_receivers` across the receiving set (list, occurrences kept). -/
def allReceivers (out_txs : List Tx) : List String :=
  (out_txs.map txReceivers).flatten

/-- Accumulated non-target sender addresses across the receiving set; the
Python `all_senders` set is this list deduplicated. -/
def allSendersOut (out_txs : List Tx) (target : String) : List String :=
  (out_txs.map (fun tx => txOutSenders tx target)).flatten

/-- `np.mean` over exact rationals: sum divided by length. -/
def npMean (l : List ℚ) : ℚ := l.sum / l.length

/-- `np.max` of a list of naturals (only applied to nonempty lists in the
source; `0` is an arbitrary total-function default). -/
def npMaxN : List ℕ → ℕ
  | [] => 0
  | x :: xs => xs.foldl max x

/-- `np.min` of a list of naturals. -/
def npMinN : List ℕ → ℕ
  | [] => 0
  | x :: xs => xs.foldl min x

/-- `np.max` of a list of rationals. -/
def npMaxQ : List ℚ → ℚ
  | [] => 0
  | x :: xs => xs.foldl max x

/-- `np.min` of a list of rationals. -/
def npMinQ : List ℚ → ℚ
  | [] => 0
  | x :: xs => xs.foldl min x

/-- Population variance as `numpy` computes it: mean squared deviation
from the mean (divisor `N`). -/
def popVar (l : List ℚ) : ℚ :=
  ((l.map (fun x => (x - npMean l) ^ 2)).sum) / l.length

/-- `np.std`: the square root of the population variance. -/
noncomputable def npStd (l : List ℚ) : ℝ :=
  Real.sqrt (popVar l)

/-- Casts a list of natural-number counts to rational samples. -/
def ratCounts (l : List ℕ) : List ℚ :=
  List.map (fun n : ℕ => (n : ℚ)) l

/-- Satoshi amounts converted to BTC (`[c / 1e8 for c in ...]`). -/
def btcList (l : List ℤ) : List ℚ :=
  List.map (fun c : ℤ => (c : ℚ) / 100000000) l

/-- The 20 sending-side metrics of `calculate_in_params`, in dict order.
Counts are integers, std-devs are reals, other statistics are exact
rationals. -/
structure InParams where
  m1 : ℕ
  m2 : ℕ
  m3 : ℕ
  m4 : ℚ
  m5 : ℕ
  m6 : ℕ
  m7 : ℝ
  m8 : ℕ
  m9 : ℕ
  m10 : ℚ
  m11 : ℕ
  m12 : ℕ
  m13 : ℝ
  m14 : ℚ
  m15 : ℚ
  m16 : ℚ
  m17 : ℚ
  m18 : ℝ
  m19 : ℚ
  m20 : ℚ

/-- `calculate_in_params`: the empty sending set returns the all-zero
record; otherwise each metric is computed from the per-transaction
sender/recipient/amount accumulations exactly as in the source. -/
noncomputable def calculate_in_params (in_txs : List Tx) (target : String) :
    InParams :=
  if in_txs = [] then
    ⟨0, 0, 0, 0, 0, 0, 0, 0, 0, 0, 0, 0, 0, 0, 0, 0, 0, 0, 0, 0⟩
  else
    let recipients_counts := recipientsCounts in_txs target
    let sender_counts := senderCounts in_txs
    let transferred_coins := transferredCoins in_txs target
    let all_recipients := allRecipients in_txs target
    let all_senders := (allSendersIn in_txs).dedup
    let transferred_coins_btc := btcList transferred_coins
    let total_coins : ℚ := ((transferred_coins.sum : ℤ) : ℚ)
    let avg_coins_per_receiver : ℚ :=
      if all_recipients = [] then 0
      else (total_coins / all_recipients.length) / 100000000
    let unique_recipients := all_recipients.dedup
    let avg_coins_per_unique_receiver : ℚ :=
      if unique_recipients = [] then 0
      else (total_coins / unique_recipients.length) / 100000000
    { m1 := in_txs.length
      m2 := all_recipients.length
      m3 := unique_recipients.length
      m4 := if recipients_counts = [] then 0
            else npMean (ratCounts recipients_counts)
      m5 := if recipients_counts = [] then 0 else npMaxN recipients_counts
      m6 := if recipients_counts = [] then 0 else npMinN recipients_counts
      m7 := if 1 < recipients_counts.length then
              npStd (ratCounts recipients_counts) else 0
      m8 := all_senders.length
      m9 := all_senders.length
      m10 := if sender_counts = [] then 0 else npMean (ratCounts sender_counts)
      m11 := if sender_counts = [] then 0 else npMaxN sender_counts
      m12 := if sender_counts = [] then 0 else npMinN sender_counts
      m13 := if 1 < sender_counts.length then
               npStd (ratCounts sender_counts) else 0
      m14 := transferred_coins_btc.sum
      m15 := if transferred_coins_btc = [] then 0
             else npMean transferred_coins_btc
      m16 := if transferred_coins_btc = [] then 0
             else npMinQ transferred_coins_btc
      m17 := if transferred_coins_btc = [] then 0
             else npMaxQ transferred_coins_btc
      m18 := if 1 < transferred_coins_btc.length then
               npStd transferred_coins_btc else 0
      m19 := avg_coins_per_receiver
      m20 := avg_coins_per_unique_receiver }

/-- The 19 receiving-side metrics of `calculate_out_params`, in dict
order. -/
structure OutParams where
  m21 : ℕ
  m22 : ℕ
  m23 : ℕ
  m24 : ℚ
  m25 : ℕ
  m26 : ℕ
  m27 : ℝ
  m28 : ℕ
  m29 : ℕ
  m30 : ℚ
  m31 : ℕ
  m32 : ℕ
  m33 : ℝ
  m34 : ℚ
  m35 : ℚ
  m36 : ℚ
  m37 : ℚ
  m38 : ℝ
  m39 : ℚ

/-- `calculate_out_params`: the empty receiving set returns the all-zero
record; otherwise each metric is computed from the per-transaction
sender/receiver/amount accumulations exactly as in the source. -/
noncomputable def calculate_out_params (out_txs : List Tx) (target : String) :
    OutParams :=
  if out_txs = [] then
    ⟨0, 0, 0, 0, 0, 0, 0, 0, 0, 0, 0, 0, 0, 0, 0, 0, 0, 0, 0⟩
  else
    let senders_counts := sendersCountsOut out_txs target
    let receivers_counts := receiversCounts out_txs
    let received_coins := receivedCoins out_txs target
    let all_senders := (allSendersOut out_txs target).dedup
    let all_receivers := allReceivers out_txs
    let received_coins_btc := btcList received_coins
    let total_coins : ℚ := ((received_coins.sum : ℤ) : ℚ)
    let avg_coins_per_sender : ℚ :=
      if all_senders = [] then 0
      else (total_coins / all_senders.length) / 100000000
    { m21 := out_txs.length
      m22 := all_senders.length
      m23 := all_senders.length
      m24 := if senders_counts = [] then 0
             else npMean (ratCounts senders_counts)
      m25 := if senders_counts = [] then 0 else npMaxN senders_counts
      m26 := if senders_counts = [] then 0 else npMinN senders_counts
      m27 := if 1 < senders_counts.length then
               npStd (ratCounts senders_counts) else 0
      m28 := all_receivers.length
      m29 := all_receivers.dedup.length
      m30 := if receivers_counts = [] then 0
             else npMean (ratCounts receivers_counts)
      m31 := if receivers_counts = [] then 0 else npMaxN receivers_counts
      m32 := if receivers_counts = [] then 0 else npMinN receivers_counts
      m33 := if 1 < receivers_counts.length then
               npStd (ratCounts receivers_counts) else 0
      m34 := received_coins_btc.sum
      m35 := if received_coins_btc = [] then 0
             else npMean received_coins_btc
      m36 := if received_coins_btc = [] then 0
             else npMinQ received_coins_btc
      m37 := if received_coins_btc = [] then 0
             else npMaxQ received_coins_btc
      m38 := if 1 < received_coins_btc.length then
               npStd received_coins_btc else 0
      m39 := avg_coins_per_sender }

/-- The 20 sending-side metric labels, in dict order, exactly as in the
source. -/
def inLabels : List String :=
  ["1. No. of in. transactions",
   "2. Total recipient addresses (excluding self as change)",
   "3. Number of unique recipient addresses",
   "4. Average number of recipients per transaction",
   "5. Max number of recipients in a transaction",
   "6. Min number of recipients in a transaction",
   "7. Standard deviation of recipients counts",
   "8. Total sender addresses in in. transactions",
   "9. Number of unique senders addresses",
   "10. Average number of senders per transaction",
   "11. Max number of senders in a transaction",
   "12. Min number of senders in a transaction",
   "13. Standard deviation of sender counts",
   "14. Total coins transferred (excluding change)",
   "15. Average coins transferred per transaction",
   "16. Min coins transferred in one transaction",
   "17. Max coins transferred in one transaction",
   "18. Standard deviation of coins transferred in all transaction",
   "19. Avg. coins transferred per receiver",
   "20. Avg. coins transferred per unique receiver"]

/-- The 19 receiving-side metric labels, in dict order, exactly as in the
source. -/
def outLabels : List String :=
  ["21. Number of out. transactions",
   "22. Total senders addresses (excluding self as change)",
   "23. Number of unique sender addresses",
   "24. Average number of senders per transaction",
   "25. Max number of senders in a transaction",
   "26. Min number of senders in a transaction",
   "27. Variation (std. dev.) in senders count",
   "28. Total receivers addresses in out. transactions",
   "29. Number of unique receivers addresses",
   "30. Average number of receivers per transaction",
   "31. Max number of receivers in a transaction",
   "32. Min number of receivers in a transaction",
   "33. Variation in receivers count",
   "34. Total coins received (excluding change)",
   "35. Average coins received per transaction",
   "36. Min coins received in one transaction",
   "37. Max coins received in one transaction",
   "38. Variation (i.e., S.D) in coins received in all transaction",
   "39. Avg. coins per sender"]

/-- The sending-side metrics dict as a labeled association list (all
values read as reals). -/
noncomputable def InParams.toPairs (p : InParams) : List (String × ℝ) :=
  [("1. No. of in. transactions", (p.m1 : ℝ)),
   ("2. Total recipient addresses (excluding self as change)", (p.m2 : ℝ)),
   ("3. Number of unique recipient addresses", (p.m3 : ℝ)),
   ("4. Average number of recipients per transaction", (p.m4 : ℝ)),
   ("5. Max number of recipients in a transaction", (p.m5 : ℝ)),
   ("6. Min number of recipients in a transaction", (p.m6 : ℝ)),
   ("7. Standard deviation of recipients counts", p.m7),
   ("8. Total sender addresses in in. transactions", (p.m8 : ℝ)),
   ("9. Number of unique senders addresses", (p.m9 : ℝ)),
   ("10. Average number of senders per transaction", (p.m10 : ℝ)),
   ("11. Max number of senders in a transaction", (p.m11 : ℝ)),
   ("12. Min number of senders in a transaction", (p.m12 : ℝ)),
   ("13. Standard deviation of sender counts", p.m13),
   ("14. Total coins transferred (excluding change)", (p.m14 : ℝ)),
   ("15. Average coins transferred per transaction", (p.m15 : ℝ)),
   ("16. Min coins transferred in one transaction", (p.m16 : ℝ)),
   ("17. Max coins transferred in one transaction", (p.m17 : ℝ)),
   ("18. Standard deviation of coins transferred in all transaction", p.m18),
   ("19. Avg. coins transferred per receiver", (p.m19 : ℝ)),
   ("20. Avg. coins transferred per unique receiver", (p.m20 : ℝ))]

/-- The receiving-side metrics dict as a labeled association list. -/
noncomputable def OutParams.toPairs (p : OutParams) : List (String × ℝ) :=
  [("21. Number of out. transactions", (p.m21 : ℝ)),
   ("22. Total senders addresses (excluding self as change)", (p.m22 : ℝ)),
   ("23. Number of unique sender addresses", (p.m23 : ℝ)),
   ("24. Average number of senders per transaction", (p.m24 : ℝ)),
   ("25. Max number of senders in a transaction", (p.m25 : ℝ)),
   ("26. Min number of senders in a transaction", (p.m26 : ℝ)),
   ("27. Variation (std. dev.) in senders count", p.m27),
   ("28. Total receivers addresses in out. transactions", (p.m28 : ℝ)),
   ("29. Number of unique receivers addresses", (p.m29 : ℝ)),
   ("30. Average number of receivers per transaction", (p.m30 : ℝ)),
   ("31. Max number of receivers in a transaction", (p.m31 : ℝ)),
   ("32. Min number of receivers in a transaction", (p.m32 : ℝ)),
   ("33. Variation in receivers count", p.m33),
   ("34. Total coins received (excluding change)", (p.m34 : ℝ)),
   ("35. Average coins received per transaction", (p.m35 : ℝ)),
   ("36. Min coins received in one transaction", (p.m36 : ℝ)),
   ("37. Max coins received in one transaction", (p.m37 : ℝ)),
   ("38. Variation (i.e., S.D) in coins received in all transaction", p.m38),
   ("39. Avg. coins per sender", (p.m39 : ℝ))]

/-- A cell of the per-address result record: the address string or a
numeric value. -/
inductive CellVal where
  | str : String → CellVal
  | num : ℝ → CellVal

/-- The address-level summary returned by the external fetch; each field
is read with `address_data.get(..., 0)` in the source. -/
structure AddressData where
  final_balance : Option ℤ
  total_received : Option ℤ
  total_sent : Option ℤ

/-- The `combined_params` dict built in `analyze_addresses`: the address,
the three balance fields (minor units divided by 10^8), then the 20
sending-side and 19 receiving-side metric entries. -/
noncomputable def combined_params (address : String) (d : AddressData)
    (inP : InParams) (outP : OutParams) : List (String × CellVal) :=
  [("Bitcoin Address", CellVal.str address),
   ("Current Balance (BTC)",
     CellVal.num (((d.final_balance.getD 0 : ℤ) : ℝ) / 100000000)),
   ("Total Received (BTC)",
     CellVal.num (((d.total_received.getD 0 : ℤ) : ℝ) / 100000000)),
   ("Total Sent (BTC)",
     CellVal.num (((d.total_sent.getD 0 : ℤ) : ℝ) / 100000000))]
  ++ inP.toPairs.map (fun kv => (kv.1, CellVal.num kv.2))
  ++ outP.toPairs.map (fun kv => (kv.1, CellVal.num kv.2))

/-- The record built for one successfully fetched address: classify, run
both aggregators, merge with the balance fields. -/
noncomputable def buildRecord (address : String) (txs : List Tx)
    (d : AddressData) : List (String × CellVal) :=
  let p := process_transactions txs address
  combined_params address d
    (calculate_in_params p.1 address) (calculate_out_params p.2 address)

/-- `analyze_addresses`, with the external fetch abstracted as an oracle:
a fetch failure (`none`, covering both the `(None, None)` return and the
caught per-address exception) skips the address; a success appends one
record, in processing order. -/
noncomputable def analyze_addresses
    (fetch : String → Option (List Tx × AddressData)) :
    List String → List (List (String × CellVal))
  | [] => []
  | a :: rest =>
    match fetch a with
    | none => analyze_addresses fetch rest
    | some p => buildRecord a p.1 p.2 :: analyze_addresses fetch rest

/-- All 43 record keys, in the fixed order of `combined_params`. -/
def recordLabels : List String :=
  ["Bitcoin Address", "Current Balance (BTC)", "Total Received (BTC)",
   "Total Sent (BTC)"] ++ inLabels ++ outLabels

/-- The zero-on-few-samples / population-variance contract for one
standard-deviation metric `v` with per-transaction samples `l`: `v` is `0`
when fewer than 2 samples exist, and otherwise is the nonnegative square
root of the divisor-`N` variance, stated via the algebraic identity
`N·Σx² − (Σx)²` over `N²`. -/
def stdSpec (v : ℝ) (l : List ℚ) : Prop :=
  (l.length ≤ 1 → v = 0) ∧
  (2 ≤ l.length → 0 ≤ v ∧
    v ^ 2 = ((((l.length : ℚ) * (l.map (fun x => x ^ 2)).sum
      - l.sum ^ 2) / (l.length : ℚ) ^ 2 : ℚ) : ℝ))

theorem process_transactions_eq_filter (T : List Tx) (A : String) :
    process_transactions T A
      = (T.filter (fun tx => isInTx tx A), T.filter (fun tx => isOutTx tx A)) := by
  induction T with
  | nil => rfl
  | cons tx rest ih =>
    simp only [process_transactions, ih, List.filter_cons]

theorem isInTx_iff (tx : Tx) (A : String) :
    isInTx tx A = true ↔ ∃ i ∈ tx.inputs, inputAddr i = some A := by
  simp [isInTx, List.any_eq_true]

theorem isOutTx_iff (tx : Tx) (A : String) :
    isOutTx tx A = true ↔ ∃ o ∈ tx.out, o.addr = some A := by
  simp [isOutTx, List.any_eq_true]

/-- C1: `process_transactions` is a pure, order-preserving filter pair: a
transaction is in the sending set iff some input's previous-output address
equals the target, and in the receiving set iff some output address equals
the target; the two tests are independent filters of the same input list,
each result is a sublist of the input (order preserved, no duplication),
and re-classifying an output set leaves it unchanged. -/
theorem C1_classifier_filter_pair (T : List Tx) (A : String) :
    (process_transactions T A).1 = T.filter (fun tx => isInTx tx A) ∧
    (process_transactions T A).2 = T.filter (fun tx => isOutTx tx A) ∧
    (∀ tx, tx ∈ (process_transactions T A).1 ↔
      tx ∈ T ∧ ∃ i ∈ tx.inputs, inputAddr i = some A) ∧
    (∀ tx, tx ∈ (process_transactions T A).2 ↔
      tx ∈ T ∧ ∃ o ∈ tx.out, o.addr = some A) ∧
    List.Sublist (process_transactions T A).1 T ∧
    List.Sublist (process_transactions T A).2 T ∧
    (process_transactions (process_transactions T A).1 A).1
      = (process_transactions T A).1 ∧
    (process_transactions (process_transactions T A).2 A).2
      = (process_transactions T A).2 := by
  have hf := process_transactions_eq_filter T A
  have h1 : (process_transactions T A).1 = T.filter (fun tx => isInTx tx A) := by
    rw [hf]
  have h2 : (process_transactions T A).2 = T.filter (fun tx => isOutTx tx A) := by
    rw [hf]
  have hidem : ∀ (p : Tx → Bool) (l : List Tx),
      (l.filter p).filter p = l.filter p := by
    intro p l
    exact List.filter_eq_self.mpr (fun a ha => (List.mem_filter.mp ha).2)
  refine ⟨h1, h2, ?_, ?_, ?_, ?_, ?_, ?_⟩
  · intro tx
    rw [h1, List.mem_filter, isInTx_iff]
  · intro tx
    rw [h2, List.mem_filter, isOutTx_iff]
  · rw [h1]; exact List.filter_sublist T
  · rw [h2]; exact List.filter_sublist T
  · rw [h1, process_transactions_eq_filter, hidem]
  · rw [h2, process_transactions_eq_filter, hidem]

/-- C2: aggregating an empty sending set yields the record whose 20 fixed
keys all map to 0, and aggregating an empty receiving set yields the
record whose 19 fixed keys all map to 0, with no partial computation and
no error (the functions are total). -/
theorem C2_empty_sets_all_zero (A : String) :
    (calculate_in_params [] A).toPairs = inLabels.map (fun k => (k, (0 : ℝ))) ∧
    (calculate_out_params [] A).toPairs = outLabels.map (fun k => (k, (0 : ℝ))) ∧
    inLabels.length = 20 ∧ outLabels.length = 19 ∧
    inLabels.Nodup ∧ outLabels.Nodup := by
  refine ⟨?_, ?_, by decide, by decide, by decide, by decide⟩
  · simp [calculate_in_params, InParams.toPairs, inLabels]
  · simp [calculate_out_params, OutParams.toPairs, outLabels]

theorem txRecipients_length_countP (tx : Tx) (A : String) :
    (txRecipients tx A).length
      = (tx.out.filterMap TxOutput.addr).countP
          (fun a => !(a == "") && !(a == A)) := by
  unfold txRecipients
  induction tx.out with
  | nil => rfl
  | cons o l ih =>
    cases h : o.addr with
    | none => simp [List.filterMap_cons, h, ih]
    | some a =>
      by_cases h1 : a = "" <;> by_cases h2 : a = A <;>
        simp [List.filterMap_cons, h, h1, h2, ih, List.countP_cons]

theorem txSentSat_eq_mapIf (tx : Tx) (A : String) :
    txSentSat tx A
      = (tx.out.map (fun o =>
          if o.addr = some A then 0 else o.value.getD 0)).sum := by
  unfold txSentSat
  induction tx.out with
  | nil => rfl
  | cons o l ih =>
    by_cases h : o.addr = some A <;>
      simp [List.filter_cons, h, ih]

theorem sum_map_intCast_div (l : List ℤ) (c : ℚ) :
    (List.map (fun x : ℤ => (x : ℚ) / c) l).sum = ((l.sum : ℤ) : ℚ) / c := by
  induction l with
  | nil => simp
  | cons x xs ih =>
    rw [List.map_cons, List.sum_cons, List.sum_cons, ih, Int.cast_add, add_div]

theorem btcList_sum (l : List ℤ) :
    (btcList l).sum = ((l.sum : ℤ) : ℚ) / 100000000 := by
  simpa [btcList] using sum_map_intCast_div l 100000000

/-- The concrete C3 input: one transaction funded by address `A` whose
single output has no address field and carries value 10^8 satoshi. -/
def c3tx : Tx :=
  { inputs := [{ prev_out := some { addr := some "A" } }],
    out := [{ addr := none, value := some 100000000 }] }

/-- Shape of the sending-side record on a nonempty set, with the `let`
accumulators of the source spelled out. -/
theorem calculate_in_params_ne (txs : List Tx) (A : String) (h : ¬txs = []) :
    calculate_in_params txs A =
      { m1 := txs.length
        m2 := (allRecipients txs A).length
        m3 := (allRecipients txs A).dedup.length
        m4 := if recipientsCounts txs A = [] then 0
              else npMean (ratCounts (recipientsCounts txs A))
        m5 := if recipientsCounts txs A = [] then 0
              else npMaxN (recipientsCounts txs A)
        m6 := if recipientsCounts txs A = [] then 0
              else npMinN (recipientsCounts txs A)
        m7 := if 1 < (recipientsCounts txs A).length then
                npStd (ratCounts (recipientsCounts txs A)) else 0
        m8 := (allSendersIn txs).dedup.length
        m9 := (allSendersIn txs).dedup.length
        m10 := if senderCounts txs = [] then 0
               else npMean (ratCounts (senderCounts txs))
        m11 := if senderCounts txs = [] then 0 else npMaxN (senderCounts txs)
        m12 := if senderCounts txs = [] then 0 else npMinN (senderCounts txs)
        m13 := if 1 < (senderCounts txs).length then
                 npStd (ratCounts (senderCounts txs)) else 0
        m14 := (btcList (transferredCoins txs A)).sum
        m15 := if btcList (transferredCoins txs A) = [] then 0
               else npMean (btcList (transferredCoins txs A))
        m16 := if btcList (transferredCoins txs A) = [] then 0
               else npMinQ (btcList (transferredCoins txs A))
        m17 := if btcList (transferredCoins txs A) = [] then 0
               else npMaxQ (btcList (transferredCoins txs A))
        m18 := if 1 < (btcList (transferredCoins txs A)).length then
                 npStd (btcList (transferredCoins txs A)) else 0
        m19 := if allRecipients txs A = [] then 0
               else (((transferredCoins txs A).sum : ℚ)
                 / (allRecipients txs A).length) / 100000000
        m20 := if (allRecipients txs A).dedup = [] then 0
               else (((transferredCoins txs A).sum : ℚ)
                 / (allRecipients txs A).dedup.length) / 100000000 } := by
  simp only [calculate_in_params, if_neg h]

/-- Shape of the receiving-side record on a nonempty set, with the `let`
accumulators of the source spelled out. -/
theorem calculate_out_params_ne (txs : List Tx) (A : String) (h : ¬txs = []) :
    calculate_out_params txs A =
      { m21 := txs.length
        m22 := (allSendersOut txs A).dedup.length
        m23 := (allSendersOut txs A).dedup.length
        m24 := if sendersCountsOut txs A = [] then 0
               else npMean (ratCounts (sendersCountsOut txs A))
        m25 := if sendersCountsOut txs A = [] then 0
               else npMaxN (sendersCountsOut txs A)
        m26 := if sendersCountsOut txs A = [] then 0
               else npMinN (sendersCountsOut txs A)
        m27 := if 1 < (sendersCountsOut txs A).length then
                 npStd (ratCounts (sendersCountsOut txs A)) else 0
        m28 := (allReceivers txs).length
        m29 := (allReceivers txs).dedup.length
        m30 := if receiversCounts txs = [] then 0
               else npMean (ratCounts (receiversCounts txs))
        m31 := if receiversCounts txs = [] then 0
               else npMaxN (receiversCounts txs)
        m32 := if receiversCounts txs = [] then 0
               else npMinN (receiversCounts txs)
        m33 := if 1 < (receiversCounts txs).length then
                 npStd (ratCounts (receiversCounts txs)) else 0
        m34 := (btcList (receivedCoins txs A)).sum
        m35 := if btcList (receivedCoins txs A) = [] then 0
               else npMean (btcList (receivedCoins txs A))
        m36 := if btcList (receivedCoins txs A) = [] then 0
               else npMinQ (btcList (receivedCoins txs A))
        m37 := if btcList (receivedCoins txs A) = [] then 0
               else npMaxQ (btcList (receivedCoins txs A))
        m38 := if 1 < (btcList (receivedCoins txs A)).length then
                 npStd (btcList (receivedCoins txs A)) else 0
        m39 := if (allSendersOut txs A).dedup = [] then 0
               else (((receivedCoins txs A).sum : ℚ)
                 / (allSendersOut txs A).dedup.length) / 100000000 } := by
  simp only [calculate_out_params, if_neg h]

/-- C3 counterexample: the only output of `c3tx` has an absent address
field, yet after classification into the sending set its value is NOT
treated as zero-contribution: metric 14 (total coins transferred) is 1,
hence strictly positive, because the source sums values over outputs
whose address is `!=` the target — and an absent address is `!=` any
target. -/
theorem C3_counterexample :
    c3tx.out.map TxOutput.addr = [none] ∧
    (process_transactions [c3tx] "A").1 = [c3tx] ∧
    (calculate_in_params [c3tx] "A").m14 = 1 ∧
    (0 : ℚ) < (calculate_in_params [c3tx] "A").m14 := by
  have h14 : (calculate_in_params [c3tx] "A").m14 = 1 := by
    rw [calculate_in_params_ne [c3tx] "A" (by simp)]
    show (btcList (transferredCoins [c3tx] "A")).sum = 1
    rw [btcList_sum]
    have hs : (transferredCoins [c3tx] "A").sum = 100000000 := by decide
    rw [hs]
    norm_num
  exact ⟨rfl, by decide, h14, by rw [h14]; norm_num⟩

/-- C3 amended: an output whose address field is absent is excluded from
the recipient-occurrence accounting (metrics 2–7 and the per-receiver
denominators) and never raises, but its value IS included in the
transferred-amount accounting: the per-transaction transferred amount is
the sum of values over outputs whose address differs from the target —
with an absent address counting as different — divided by 10^8. -/
theorem C3_amended_missing_addr (txs : List Tx) (A : String) :
    (calculate_in_params txs A).m2
      = (txs.map (fun tx =>
          (tx.out.filterMap TxOutput.addr).countP
            (fun a => !(a == "") && !(a == A)))).sum ∧
    (calculate_in_params txs A).m14
      = (((txs.map (fun tx =>
          (tx.out.map (fun o =>
            if o.addr = some A then 0 else o.value.getD 0)).sum)).sum : ℤ) : ℚ)
          / 100000000 := by
  by_cases h : txs = []
  · subst h
    simp [calculate_in_params]
  · rw [calculate_in_params_ne txs A h]
    constructor
    · show (allRecipients txs A).length = _
      rw [allRecipients, List.length_flatten, List.map_map]
      congr 1
      exact List.map_eq_map_iff.mpr (fun tx _ => by
        simpa [Function.comp] using txRecipients_length_countP tx A)
    · show (btcList (transferredCoins txs A)).sum = _
      rw [btcList_sum]
      have hmap : transferredCoins txs A
          = txs.map (fun tx => (tx.out.map (fun o =>
              if o.addr = some A then 0 else o.value.getD 0)).sum) := by
        unfold transferredCoins
        exact List.map_eq_map_iff.mpr (fun tx _ => txSentSat_eq_mapIf tx A)
      rw [hmap]

theorem sum_map_sub_sq (l : List ℚ) (μ : ℚ) :
    (l.map (fun x => (x - μ) ^ 2)).sum
      = (l.map (fun x => x ^ 2)).sum - 2 * μ * l.sum + l.length * μ ^ 2 := by
  induction l with
  | nil => simp
  | cons x xs ih =>
    simp only [List.map_cons, List.sum_cons, ih, List.length_cons]
    push_cast
    ring

theorem popVar_formula (l : List ℚ) (h : l ≠ []) :
    popVar l = ((l.length : ℚ) * (l.map (fun x => x ^ 2)).sum - l.sum ^ 2)
      / (l.length : ℚ) ^ 2 := by
  have hn : (l.length : ℚ) ≠ 0 :=
    Nat.cast_ne_zero.mpr (List.length_pos.mpr h).ne'
  rw [popVar, sum_map_sub_sq, npMean]
  field_simp
  ring

theorem popVar_nonneg (l : List ℚ) : 0 ≤ popVar l := by
  apply div_nonneg
  · apply List.sum_nonneg
    intro x hx
    obtain ⟨y, -, rfl⟩ := List.mem_map.mp hx
    positivity
  · exact Nat.cast_nonneg _

theorem stdSpec_ite (l : List ℚ) :
    stdSpec (if 1 < l.length then npStd l else 0) l := by
  constructor
  · intro hle
    rw [if_neg (by omega)]
  · intro h2
    rw [if_pos (by omega)]
    have hne : l ≠ [] := by
      intro e
      subst e
      simp at h2
    refine ⟨Real.sqrt_nonneg _, ?_⟩
    rw [npStd, Real.sq_sqrt (by exact_mod_cast popVar_nonneg l)]
    exact_mod_cast congrArg (fun q : ℚ => (q : ℝ)) (popVar_formula l hne)

theorem stdSpec_zero_nil : stdSpec 0 ([] : List ℚ) := by
  constructor
  · intro _
    rfl
  · intro h2
    simp at h2

/-- C4: each standard-deviation metric (7, 13, 18, 27, 33, 38) is `0`
whenever its per-transaction sample sequence has fewer than 2 samples, and
otherwise is the nonnegative square root of the population variance of the
samples (divisor `N`, via the identity `(N·Σx² − (Σx)²)/N²`); and on an
empty set every mean/max/min metric is `0` rather than an error or NaN. -/
theorem C4_std_dev_policy (txs : List Tx) (A : String) :
    stdSpec (calculate_in_params txs A).m7 (ratCounts (recipientsCounts txs A)) ∧
    stdSpec (calculate_in_params txs A).m13 (ratCounts (senderCounts txs)) ∧
    stdSpec (calculate_in_params txs A).m18 (btcList (transferredCoins txs A)) ∧
    stdSpec (calculate_out_params txs A).m27
      (ratCounts (sendersCountsOut txs A)) ∧
    stdSpec (calculate_out_params txs A).m33 (ratCounts (receiversCounts txs)) ∧
    stdSpec (calculate_out_params txs A).m38 (btcList (receivedCoins txs A)) ∧
    (txs = [] →
      ((calculate_in_params txs A).m4 = 0 ∧ (calculate_in_params txs A).m5 = 0 ∧
       (calculate_in_params txs A).m6 = 0 ∧
       (calculate_in_params txs A).m10 = 0 ∧
       (calculate_in_params txs A).m11 = 0 ∧
       (calculate_in_params txs A).m12 = 0 ∧
       (calculate_in_params txs A).m15 = 0 ∧
       (calculate_in_params txs A).m16 = 0 ∧
       (calculate_in_params txs A).m17 = 0) ∧
      ((calculate_out_params txs A).m24 = 0 ∧
       (calculate_out_params txs A).m25 = 0 ∧
       (calculate_out_params txs A).m26 = 0 ∧
       (calculate_out_params txs A).m30 = 0 ∧
       (calculate_out_params txs A).m31 = 0 ∧
       (calculate_out_params txs A).m32 = 0 ∧
       (calculate_out_params txs A).m35 = 0 ∧
       (calculate_out_params txs A).m36 = 0 ∧
       (calculate_out_params txs A).m37 = 0)) := by
  by_cases h : txs = []
  · subst h
    have hin : ∀ n : ℝ, (calculate_in_params [] A).m7 = n → n = 0 → True :=
      fun _ _ _ => trivial
    refine ⟨?_, ?_, ?_, ?_, ?_, ?_, fun _ => ?_⟩
    · have e : (calculate_in_params [] A).m7 = 0 := by simp [calculate_in_params]
      rw [e]
      exact stdSpec_zero_nil
    · have e : (calculate_in_params [] A).m13 = 0 := by
        simp [calculate_in_params]
      rw [e]
      exact stdSpec_zero_nil
    · have e : (calculate_in_params [] A).m18 = 0 := by
        simp [calculate_in_params]
      rw [e]
      exact stdSpec_zero_nil
    · have e : (calculate_out_params [] A).m27 = 0 := by
        simp [calculate_out_params]
      rw [e]
      exact stdSpec_zero_nil
    · have e : (calculate_out_params [] A).m33 = 0 := by
        simp [calculate_out_params]
      rw [e]
      exact stdSpec_zero_nil
    · have e : (calculate_out_params [] A).m38 = 0 := by
        simp [calculate_out_params]
      rw [e]
      exact stdSpec_zero_nil
    · refine ⟨⟨?_, ?_, ?_, ?_, ?_, ?_, ?_, ?_, ?_⟩,
        ⟨?_, ?_, ?_, ?_, ?_, ?_, ?_, ?_, ?_⟩⟩ <;>
        simp [calculate_in_params, calculate_out_params]
  · rw [calculate_in_params_ne txs A h, calculate_out_params_ne txs A h]
    refine ⟨?_, ?_, ?_, ?_, ?_, ?_, fun e => absurd e h⟩
    · simpa [ratCounts, List.length_map] using
        stdSpec_ite (ratCounts (recipientsCounts txs A))
    · simpa [ratCounts, List.length_map] using
        stdSpec_ite (ratCounts (senderCounts txs))
    · exact stdSpec_ite (btcList (transferredCoins txs A))
    · simpa [ratCounts, List.length_map] using
        stdSpec_ite (ratCounts (sendersCountsOut txs A))
    · simpa [ratCounts, List.length_map] using
        stdSpec_ite (ratCounts (receiversCounts txs))
    · exact stdSpec_ite (btcList (receivedCoins txs A))

/-- C5: on a nonempty recipient multiset, metric 19 is the total
transferred amount (metric 14) divided by the number of recipient-address
occurrences, and metric 20 is metric 14 divided by the number of distinct
recipient addresses; on an empty recipient multiset both metrics are `0`
instead of a division by zero. -/
theorem C5_per_receiver_averages (txs : List Tx) (A : String) :
    (allRecipients txs A ≠ [] →
      (calculate_in_params txs A).m19
        = (calculate_in_params txs A).m14 / ((allRecipients txs A).length : ℚ) ∧
      (calculate_in_params txs A).m20
        = (calculate_in_params txs A).m14
            / ((allRecipients txs A).dedup.length : ℚ)) ∧
    (allRecipients txs A = [] →
      (calculate_in_params txs A).m19 = 0 ∧
      (calculate_in_params txs A).m20 = 0) := by
  by_cases h : txs = []
  · subst h
    constructor
    · intro hne
      exact absurd rfl hne
    · intro _
      constructor <;> simp [calculate_in_params]
  · rw [calculate_in_params_ne txs A h]
    constructor
    · intro hne
      have hd : (allRecipients txs A).dedup ≠ [] := by
        simpa [List.dedup_eq_nil] using hne
      constructor
      · show (if allRecipients txs A = [] then 0 else _) = _
        rw [if_neg hne, btcList_sum]
        ring
      · show (if (allRecipients txs A).dedup = [] then 0 else _) = _
        rw [if_neg hd, btcList_sum]
        ring
    · intro he
      constructor
      · show (if allRecipients txs A = [] then 0 else _) = _
        rw [if_pos he]
      · show (if (allRecipients txs A).dedup = [] then 0 else _) = _
        rw [if_pos (by rw [he]; rfl)]

/-- First C5 witness transaction: funded by `A`, paying `X` twice. -/
def c5tx1 : Tx :=
  { inputs := [{ prev_out := some { addr := some "A" } }],
    out := [{ addr := some "X", value := some 100000000 },
            { addr := some "X", value := some 100000000 }] }

/-- Second C5 witness transaction: funded by `A`, paying `Y` once. -/
def c5tx2 : Tx :=
  { inputs := [{ prev_out := some { addr := some "A" } }],
    out := [{ addr := some "Y", value := some 100000000 }] }

/-- C5 witness: recipients `[X, X, Y]` with 3.0 coins transferred give
metric 19 = 3/3 = 1 and metric 20 = 3/2 = 1.5. -/
theorem C5_per_receiver_averages_witness :
    allRecipients [c5tx1, c5tx2] "A" ≠ [] ∧
    (calculate_in_params [c5tx1, c5tx2] "A").m14 = 3 ∧
    (calculate_in_params [c5tx1, c5tx2] "A").m19 = 1 ∧
    (calculate_in_params [c5tx1, c5tx2] "A").m20 = 3 / 2 := by
  have hne : allRecipients [c5tx1, c5tx2] "A" ≠ [] := by decide
  have h := (C5_per_receiver_averages [c5tx1, c5tx2] "A").1 hne
  have h14 : (calculate_in_params [c5tx1, c5tx2] "A").m14 = 3 := by
    rw [calculate_in_params_ne [c5tx1, c5tx2] "A" (by decide)]
    show (btcList (transferredCoins [c5tx1, c5tx2] "A")).sum = 3
    rw [btcList_sum]
    have hs : (transferredCoins [c5tx1, c5tx2] "A").sum = 300000000 := by decide
    rw [hs]
    norm_num
  have hlen : (allRecipients [c5tx1, c5tx2] "A").length = 3 := by decide
  have hdlen : (allRecipients [c5tx1, c5tx2] "A").dedup.length = 2 := by decide
  refine ⟨hne, h14, ?_, ?_⟩
  · rw [h.1, h14, hlen]
    norm_num
  · rw [h.2, h14, hdlen]
    norm_num

/-- C7: metric 8 always equals metric 9 and metric 22 always equals
metric 23 — each pair is computed from the same unique-address set in the
source, so the "total" and "unique" sender counts are numerically
identical for every transaction list. -/
theorem C7_total_equals_unique_senders (txs : List Tx) (A : String) :
    (calculate_in_params txs A).m8 = (calculate_in_params txs A).m9 ∧
    (calculate_out_params txs A).m22 = (calculate_out_params txs A).m23 := by
  by_cases h : txs = []
  · subst h
    constructor <;> simp [calculate_in_params, calculate_out_params]
  · rw [calculate_in_params_ne txs A h, calculate_out_params_ne txs A h]
    exact ⟨rfl, rfl⟩

/-- C10: the unique-address cardinality metrics never exceed their
occurrence-count counterparts: metric 3 ≤ metric 2 on the sending side and
metric 29 ≤ metric 28 on the receiving side. -/
theorem C10_unique_le_total (txs : List Tx) (A : String) :
    (calculate_in_params txs A).m3 ≤ (calculate_in_params txs A).m2 ∧
    (calculate_out_params txs A).m29 ≤ (calculate_out_params txs A).m28 := by
  by_cases h : txs = []
  · subst h
    constructor <;> simp [calculate_in_params, calculate_out_params]
  · rw [calculate_in_params_ne txs A h, calculate_out_params_ne txs A h]
    exact ⟨(List.dedup_sublist _).length_le, (List.dedup_sublist _).length_le⟩

theorem txOutSenders_eq_filter (tx : Tx) (A : String) :
    txOutSenders tx A = (txInSenders tx).filter (fun a => a != A) := by
  unfold txOutSenders txInSenders
  induction tx.inputs with
  | nil => rfl
  | cons i l ih =>
    cases h : inputAddr i with
    | none => simp [List.filterMap_cons, h, ih]
    | some a =>
      by_cases h1 : a = ""
      · simp [List.filterMap_cons, h, h1, ih]
      · by_cases h2 : a = A
        · subst h2
          simp [List.filterMap_cons, List.filter_cons, h, h1, ih]
        · simp [List.filterMap_cons, List.filter_cons, h, h1, h2, ih]

theorem mem_txReceivers (tx : Tx) (a : String) :
    a ∈ txReceivers tx ↔ a ≠ "" ∧ ∃ o ∈ tx.out, o.addr = some a := by
  unfold txReceivers
  rw [List.mem_filterMap]
  constructor
  · rintro ⟨o, ho, he⟩
    cases h : o.addr with
    | none => rw [h] at he; exact absurd he (by simp)
    | some b =>
      rw [h] at he
      by_cases h1 : b = ""
      · simp [h1] at he
      · simp only [if_neg h1] at he
        obtain rfl : b = a := by simpa using he
        exact ⟨h1, o, ho, h⟩
  · rintro ⟨h1, o, ho, he⟩
    refine ⟨o, ho, ?_⟩
    rw [he]
    simp [h1]

theorem txReceivedSat_eq_mapIf (tx : Tx) (A : String) :
    txReceivedSat tx A
      = (tx.out.map (fun o =>
          if o.addr = some A then o.value.getD 0 else 0)).sum := by
  unfold txReceivedSat
  induction tx.out with
  | nil => rfl
  | cons o l ih =>
    by_cases h : o.addr = some A <;>
      simp [List.filter_cons, h, ih]

/-- C6: the receiving-side aggregator excludes the target from the
per-transaction sender lists (they are exactly the sending-side sender
lists with the target filtered out, so the target never appears), keeps
every present output address in the receiver lists with no target
exclusion, computes the per-transaction received amount as the sum of
values over outputs whose address equals the target divided by 10^8, and
computes metric 39 as the total received amount divided by the number of
distinct non-target sender addresses, `0` when that set is empty. -/
theorem C6_receiving_side_aggregation (txs : List Tx) (A : String) :
    (∀ tx : Tx, txOutSenders tx A = (txInSenders tx).filter (fun a => a != A)) ∧
    (∀ tx : Tx, A ∉ txOutSenders tx A) ∧
    (∀ (tx : Tx) (a : String),
      a ∈ txReceivers tx ↔ a ≠ "" ∧ ∃ o ∈ tx.out, o.addr = some a) ∧
    (∀ tx : Tx, txReceivedSat tx A
      = (tx.out.map (fun o =>
          if o.addr = some A then o.value.getD 0 else 0)).sum) ∧
    ((calculate_out_params txs A).m34
      = (((txs.map (fun tx => txReceivedSat tx A)).sum : ℤ) : ℚ) / 100000000) ∧
    ((allSendersOut txs A).dedup ≠ [] →
      (calculate_out_params txs A).m39
        = (calculate_out_params txs A).m34
            / ((allSendersOut txs A).dedup.length : ℚ)) ∧
    ((allSendersOut txs A).dedup = [] →
      (calculate_out_params txs A).m39 = 0) := by
  have hmem : ∀ tx : Tx, A ∉ txOutSenders tx A := by
    intro tx hA
    rw [txOutSenders_eq_filter] at hA
    have := (List.mem_filter.mp hA).2
    simp at this
  by_cases h : txs = []
  · subst h
    refine ⟨fun tx => txOutSenders_eq_filter tx A, hmem,
      fun tx a => mem_txReceivers tx a,
      fun tx => txReceivedSat_eq_mapIf tx A, ?_, ?_, ?_⟩
    · simp [calculate_out_params]
    · intro hne
      exact absurd rfl hne
    · intro _
      simp [calculate_out_params]
  · rw [calculate_out_params_ne txs A h]
    refine ⟨fun tx => txOutSenders_eq_filter tx A, hmem,
      fun tx a => mem_txReceivers tx a,
      fun tx => txReceivedSat_eq_mapIf tx A, ?_, ?_, ?_⟩
    · show (btcList (receivedCoins txs A)).sum = _
      rw [btcList_sum]
      rfl
    · intro hne
      show (if (allSendersOut txs A).dedup = [] then 0 else _) = _
      rw [if_neg hne, btcList_sum]
      ring
    · intro he
      show (if (allSendersOut txs A).dedup = [] then 0 else _) = _
      rw [if_pos he]

/-- C6 witness transaction: sender `C` pays 1.2 coins to `A`. -/
def c6tx : Tx :=
  { inputs := [{ prev_out := some { addr := some "C" } }],
    out := [{ addr := some "A", value := some 120000000 }] }

/-- C6 witness: for one transaction in which `C` sends 1.2 coins to `A`,
the distinct-sender set is nonempty and metric 39 is metric 34 divided by
1, i.e. 1.2 coins per sender. -/
theorem C6_receiving_side_aggregation_witness :
    (allSendersOut [c6tx] "A").dedup ≠ [] ∧
    (calculate_out_params [c6tx] "A").m34 = 6 / 5 ∧
    (calculate_out_params [c6tx] "A").m39 = 6 / 5 := by
  have hne : (allSendersOut [c6tx] "A").dedup ≠ [] := by decide
  have h := C6_receiving_side_aggregation [c6tx] "A"
  have h34 : (calculate_out_params [c6tx] "A").m34 = 6 / 5 := by
    rw [h.2.2.2.2.1]
    have hs : ([c6tx].map (fun tx => txReceivedSat tx "A")).sum
        = 120000000 := by decide
    rw [hs]
    norm_num
  have hdlen : (allSendersOut [c6tx] "A").dedup.length = 1 := by decide
  refine ⟨hne, h34, ?_⟩
  rw [h.2.2.2.2.2.1 hne, h34, hdlen]
  norm_num

/-- C8: `analyze_addresses` is exactly the per-address filter-map of the
fetch oracle — a failed fetch (covering both the explicit `None` return
and the caught per-address exception) contributes no record and does not
stop the loop; in particular a two-address list whose first fetch fails
and whose second succeeds yields exactly the one record of the second
address. -/
theorem C8_fetch_failure_skips
    (fetch : String → Option (List Tx × AddressData)) (addrs : List String) :
    analyze_addresses fetch addrs
      = addrs.filterMap (fun a =>
          (fetch a).map (fun p => buildRecord a p.1 p.2)) ∧
    (∀ (a1 a2 : String) (txs : List Tx) (d : AddressData),
      fetch a1 = none → fetch a2 = some (txs, d) →
      analyze_addresses fetch [a1, a2] = [buildRecord a2 txs d]) := by
  constructor
  · induction addrs with
    | nil => rfl
    | cons a rest ih =>
      cases hf : fetch a <;>
        simp [analyze_addresses, hf, ih, List.filterMap_cons]
  · intro a1 a2 txs d h1 h2
    simp [analyze_addresses, h1, h2]

/-- A concrete fetch oracle for the C8 witness: only address `"ok"`
succeeds, returning no transactions and an empty summary. -/
def fetchEx : String → Option (List Tx × AddressData) :=
  fun a => if a = "ok" then some ([], ⟨none, none, none⟩) else none

/-- C8 witness: with the first fetch failing and the second succeeding,
the result table holds exactly the record of the succeeding address. -/
theorem C8_fetch_failure_skips_witness :
    fetchEx "bad" = none ∧
    fetchEx "ok" = some ([], ⟨none, none, none⟩) ∧
    analyze_addresses fetchEx ["bad", "ok"]
      = [buildRecord "ok" [] ⟨none, none, none⟩] := by
  refine ⟨rfl, rfl, ?_⟩
  exact (C8_fetch_failure_skips fetchEx ["bad", "ok"]).2 "bad" "ok" []
    ⟨none, none, none⟩ rfl rfl

theorem inParams_toPairs_fst (p : InParams) :
    p.toPairs.map Prod.fst = inLabels := rfl

theorem outParams_toPairs_fst (p : OutParams) :
    p.toPairs.map Prod.fst = outLabels := rfl

theorem combined_params_keys (address : String) (d : AddressData)
    (inP : InParams) (outP : OutParams) :
    (combined_params address d inP outP).map Prod.fst = recordLabels := by
  have hnum : ∀ l : List (String × ℝ),
      (l.map (fun kv => (kv.1, CellVal.num kv.2))).map Prod.fst
        = l.map Prod.fst := by
    intro l
    rw [List.map_map]
    rfl
  simp only [combined_params, recordLabels, List.map_append, List.map_cons,
    List.map_nil, hnum, inParams_toPairs_fst, outParams_toPairs_fst]

theorem buildRecord_keys (address : String) (txs : List Tx)
    (d : AddressData) :
    (buildRecord address txs d).map Prod.fst = recordLabels :=
  combined_params_keys address d _ _

/-- C9 counterexample: a record for a successfully processed address has
43 fields, not 42 — the address string plus 3 balance fields plus 39
metrics make 43 keys, as the concrete empty-history record shows. -/
theorem C9_counterexample :
    (buildRecord "addr0" [] ⟨none, none, none⟩).length = 43 ∧ 42 < 43 := by
  constructor
  · have hk := buildRecord_keys "addr0" [] ⟨none, none, none⟩
    have hl := congrArg List.length hk
    rwa [List.length_map] at hl
  · norm_num

/-- C9 amended: every record produced for a successfully processed address
has exactly 43 fields in fixed order — the address string, the 3 balance
fields, then the 20 sending-side metric keys followed by the 19
receiving-side metric keys under their stable labels — for every possible
transaction-list input, with all 39 metric keys always present. -/
theorem C9_record_shape (address : String) (txs : List Tx) (d : AddressData) :
    (buildRecord address txs d).map Prod.fst = recordLabels ∧
    (buildRecord address txs d).length = 43 ∧
    recordLabels
      = ["Bitcoin Address", "Current Balance (BTC)", "Total Received (BTC)",
         "Total Sent (BTC)"] ++ inLabels ++ outLabels ∧
    inLabels.length = 20 ∧ outLabels.length = 19 ∧ recordLabels.Nodup := by
  refine ⟨buildRecord_keys address txs d, ?_, rfl, by decide, by decide,
    by decide⟩
  have hl := congrArg List.length (buildRecord_keys address txs d)
  rwa [List.length_map] at hl

/-- First C4 witness transaction: funded by `A`, no outputs. -/
def c4tx1 : Tx :=
  { inputs := [{ prev_out := some { addr := some "A" } }], out := [] }

/-- Second C4 witness transaction: funded by `A`, paying `B` and `C`. -/
def c4tx2 : Tx :=
  { inputs := [{ prev_out := some { addr := some "A" } }],
    out := [{ addr := some "B", value := some 1 },
            { addr := some "C", value := some 2 }] }

/-- C4 witness: recipient-count samples `[0, 2]` have population variance
`((2·4 − 4)/4) = 1` (divisor `N = 2`), so metric 7 equals exactly 1. -/
theorem C4_std_dev_policy_witness :
    (0 : ℝ) ≤ (calculate_in_params [c4tx1, c4tx2] "A").m7 ∧
    (calculate_in_params [c4tx1, c4tx2] "A").m7 = 1 := by
  have hsample : ratCounts (recipientsCounts [c4tx1, c4tx2] "A")
      = [0, 2] := by
    have hc : recipientsCounts [c4tx1, c4tx2] "A" = [0, 2] := by decide
    rw [hc]
    simp [ratCounts]
  have h := (C4_std_dev_policy [c4tx1, c4tx2] "A").1
  rw [hsample] at h
  obtain ⟨h1, h2⟩ := h.2 (by norm_num)
  have h2' : (calculate_in_params [c4tx1, c4tx2] "A").m7 ^ 2 = 1 := by
    rw [h2]
    norm_num
  refine ⟨h1, ?_⟩
  nlinarith [h1, h2']
